import Mathlib

/-!
Shallow embedding of the SMR_data_loading repository
(src/populate_rockprops_SMR_loader.py together with src/Config/SMR_config.py)
and proofs about its row-construction and cross-sheet linkage logic.

Modelling conventions:
* Python floats are modelled as PyFloat: either NaN or an exact rational.
  Depth columns are assumed numeric (the claims under study never exercise
  NaN depths), percentile measurement columns may be NaN.
* Excel worksheets are lists of typed rows; ws.append is list append.
* A Python exception aborts the run before the workbook is saved; fallible
  code therefore returns Except String Workbook.
* File and path handling (template loading, CSV reading, saving) is thin
  I/O glue outside the verified core; the embedding takes the parsed
  metadata table and the parsed measurement table as inputs.
-/

set_option maxRecDepth 8000

set_option maxHeartbeats 1000000

namespace SMRLoad

/-! ## Decimal rendering of integers

Models the Python str conversion used inside f-strings, with full proofs
of injectivity and of the shape of the produced characters.  Defined with
explicit fuel so that concrete instances reduce by kernel computation. -/

/-- Decimal digit character of a digit value; values ten and above
(never reached by natDigitsGo) collapse to the character 9. -/
def digitChar : ℕ → Char
  | 0 => '0'
  | 1 => '1'
  | 2 => '2'
  | 3 => '3'
  | 4 => '4'
  | 5 => '5'
  | 6 => '6'
  | 7 => '7'
  | 8 => '8'
  | _ => '9'

/-- Numeric value of a digit character (inverse of digitChar on digits). -/
def digitVal : Char → ℕ
  | '0' => 0
  | '1' => 1
  | '2' => 2
  | '3' => 3
  | '4' => 4
  | '5' => 5
  | '6' => 6
  | '7' => 7
  | '8' => 8
  | _ => 9

/-- Fuel-driven decimal expansion, most significant digit first. -/
def natDigitsGo : ℕ → ℕ → List Char
  | 0, _ => []
  | fuel + 1, n =>
    if n < 10 then [digitChar n]
    else natDigitsGo fuel (n / 10) ++ [digitChar (n % 10)]

/-- Decimal digit characters of a natural number. -/
def natDigits (n : ℕ) : List Char := natDigitsGo (n + 1) n

/-- Decimal string of a natural number (models Python str on a
nonnegative int). -/
def natStr (n : ℕ) : String := ⟨natDigits n⟩

/-- Decimal string of an integer (models Python str on an int). -/
def intStr (z : ℤ) : String :=
  if z < 0 then "-" ++ natStr z.natAbs else natStr z.natAbs

theorem digitVal_digitChar {d : ℕ} (h : d < 10) : digitVal (digitChar d) = d := by
  interval_cases d <;> rfl

theorem digitChar_ne_underscore (d : ℕ) : digitChar d ≠ '_' := by
  unfold digitChar
  split <;> decide

theorem digitChar_ne_letter (d : ℕ) : digitChar d ≠ 'L' := by
  unfold digitChar
  split <;> decide

theorem natDigitsGo_mem {fuel n : ℕ} {c : Char} (h : c ∈ natDigitsGo fuel n) :
    ∃ d, c = digitChar d := by
  induction fuel generalizing n with
  | zero => simp [natDigitsGo] at h
  | succ fuel ih =>
    unfold natDigitsGo at h
    split at h
    · simp at h
      exact ⟨n, h⟩
    · rcases List.mem_append.1 h with h1 | h1
      · exact ih h1
      · simp at h1
        exact ⟨n % 10, h1⟩

theorem natDigits_ne_underscore {n : ℕ} {c : Char} (h : c ∈ natDigits n) : c ≠ '_' := by
  obtain ⟨d, rfl⟩ := natDigitsGo_mem h
  exact digitChar_ne_underscore d

theorem natDigits_ne_letter {n : ℕ} {c : Char} (h : c ∈ natDigits n) : c ≠ 'L' := by
  obtain ⟨d, rfl⟩ := natDigitsGo_mem h
  exact digitChar_ne_letter d

/-- Value of a digit list read back with foldl, with arbitrary accumulator. -/
theorem natDigitsGo_foldl {fuel n : ℕ} (h : n < fuel) (a : ℕ) :
    (natDigitsGo fuel n).foldl (fun acc c => 10 * acc + digitVal c) a
      = a * 10 ^ (natDigitsGo fuel n).length + n := by
  induction fuel generalizing n a with
  | zero => omega
  | succ fuel ih =>
    unfold natDigitsGo
    split
    · next hlt =>
      simp [List.foldl, digitVal_digitChar hlt]
      ring
    · next hge =>
      have h10 : 10 ≤ n := by omega
      have hdiv : n / 10 < fuel := by
        have h1 : n / 10 < n := Nat.div_lt_self (by omega) (by omega)
        omega
      rw [List.foldl_append]
      simp only [List.foldl, digitVal_digitChar (Nat.mod_lt n (by omega : 0 < 10))]
      rw [ih hdiv a, List.length_append]
      simp [pow_succ]
      have := Nat.div_add_mod n 10
      ring_nf
      omega

theorem natDigits_injective : Function.Injective natDigits := by
  intro m n h
  have hm := natDigitsGo_foldl (Nat.lt_succ_self m) 0
  have hn := natDigitsGo_foldl (Nat.lt_succ_self n) 0
  unfold natDigits at h
  rw [h] at hm
  simp only [zero_mul, zero_add] at hm hn
  exact hm.symm.trans hn

theorem natDigits_ne_nil (n : ℕ) : natDigits n ≠ [] := by
  unfold natDigits natDigitsGo
  split <;> simp

/-! ## Splitting lemma for identifiers of the form base_Lk

The sample identifiers built by the loader are site + "_L" + digits.
Because decimal digit characters are never the letter L, the split of
such a string into its base and its digit suffix is unique. -/

theorem tag_split_lt {a₁ a₂ d₁ d₂ : List Char} (h₂ : ∀ c ∈ d₂, c ≠ 'L')
    (hd : d₁.length < d₂.length)
    (h : a₁ ++ '_' :: 'L' :: d₁ = a₂ ++ '_' :: 'L' :: d₂) : False := by
  set k := d₂.length - d₁.length with hk
  have hk1 : 1 ≤ k := by omega
  have hsplit : d₂ = d₂.take k ++ d₂.drop k := (List.take_append_drop k d₂).symm
  have hgrp : (a₁ ++ ['_', 'L']) ++ d₁
      = (a₂ ++ ['_', 'L'] ++ d₂.take k) ++ d₂.drop k := by
    have e₁ : a₁ ++ ['_', 'L'] ++ d₁ = a₁ ++ '_' :: 'L' :: d₁ := by simp
    have e₂ : a₂ ++ ['_', 'L'] ++ d₂ = a₂ ++ '_' :: 'L' :: d₂ := by simp
    rw [e₁, h, ← e₂]
    conv_lhs => rw [hsplit]
    simp
  have hlen2 : d₁.length = (d₂.drop k).length := by
    simp only [List.length_drop]
    omega
  have hparts := List.append_inj' hgrp hlen2
  have hrev := congrArg List.reverse hparts.1
  simp only [List.reverse_append] at hrev
  rcases hrevcase : (d₂.take k).reverse with _ | ⟨e, es⟩
  · have hz : (d₂.take k).length = 0 := by
      have := congrArg List.length hrevcase
      simpa using this
    rw [List.length_take] at hz
    omega
  · rw [hrevcase] at hrev
    have hrev2 : ('L' : Char) :: '_' :: a₁.reverse = e :: (es ++ (['L', '_'] ++ a₂.reverse)) := by
      simpa using hrev
    have hLe : 'L' = e := (List.cons.injEq _ _ _ _ ▸ hrev2).1
    have he : e ∈ d₂ := by
      have hmem : e ∈ (d₂.take k).reverse := by simp [hrevcase]
      exact List.take_subset k d₂ (List.mem_reverse.1 hmem)
    exact h₂ e he hLe.symm

theorem tag_split {a₁ a₂ d₁ d₂ : List Char}
    (h₁ : ∀ c ∈ d₁, c ≠ 'L') (h₂ : ∀ c ∈ d₂, c ≠ 'L')
    (h : a₁ ++ '_' :: 'L' :: d₁ = a₂ ++ '_' :: 'L' :: d₂) :
    a₁ = a₂ ∧ d₁ = d₂ := by
  have hlen : a₁.length + (d₁.length + 2) = a₂.length + (d₂.length + 2) := by
    have := congrArg List.length h
    simpa using this
  rcases lt_trichotomy d₁.length d₂.length with hd | hd | hd
  · exact absurd (tag_split_lt h₂ hd h) (by simp)
  · have hla : a₁.length = a₂.length := by omega
    have hparts := List.append_inj h hla
    refine ⟨hparts.1, ?_⟩
    simpa using hparts.2
  · exact absurd (tag_split_lt h₁ hd h.symm) (by simp)

/-! ## String-level identifier lemmas -/

theorem str_data_inj {s t : String} (h : s.data = t.data) : s = t := by
  cases s
  cases t
  simp only at h
  rw [h]

/-- Identifiers site + "_L" + digits determine their site and number parts. -/
theorem sample_tag_inj {s₁ s₂ : String} {k₁ k₂ : ℕ}
    (h : s₁ ++ "_L" ++ natStr k₁ = s₂ ++ "_L" ++ natStr k₂) :
    s₁ = s₂ ∧ k₁ = k₂ := by
  have hdata : s₁.data ++ '_' :: 'L' :: natDigits k₁
      = s₂.data ++ '_' :: 'L' :: natDigits k₂ := by
    have h1 := congrArg String.data h
    simpa [String.data_append, natStr] using h1
  have hsp := tag_split (fun c hc => natDigits_ne_letter hc)
    (fun c hc => natDigits_ne_letter hc) hdata
  exact ⟨str_data_inj hsp.1, natDigits_injective hsp.2⟩

/-- Appending a fixed tail to a string is injective. -/
theorem append_right_inj {s₁ s₂ p : String} (h : s₁ ++ p = s₂ ++ p) : s₁ = s₂ := by
  have h1 := congrArg String.data h
  simp only [String.data_append] at h1
  exact str_data_inj (List.append_cancel_right h1)

/-- Prepending a fixed string is injective. -/
theorem append_left_inj {s p₁ p₂ : String} (h : s ++ p₁ = s ++ p₂) : p₁ = p₂ := by
  have h1 := congrArg String.data h
  simp only [String.data_append] at h1
  exact str_data_inj (List.append_cancel_left h1)

/-! ## Numeric model

Python floats are rationals or NaN; the three rounding rules that appear
in the program are the ceiling rule of round_up, the half-to-even rule of
pandas DataFrame.round (numpy rint), and the toward-zero truncation of
the Python int() conversion. -/

/-- A Python float value: NaN or an exact rational. -/
inductive PyFloat where
  | nan : PyFloat
  | num : ℚ → PyFloat
deriving DecidableEq

/-- Result of numpy isnan on a scalar. -/
def np_isnan : PyFloat → Bool
  | .nan => true
  | .num _ => false

/-- Rational payload of a numeric PyFloat (zero for NaN; only used under
a numeric hypothesis). -/
def PyFloat.toRat : PyFloat → ℚ
  | .nan => 0
  | .num q => q

/-- Round half to even at integer precision: the numpy rint rule that
pandas DataFrame.round scales by a power of ten. -/
def rintHalfEven (q : ℚ) : ℤ :=
  if q - ⌊q⌋ < 1 / 2 then ⌊q⌋
  else if 1 / 2 < q - ⌊q⌋ then ⌊q⌋ + 1
  else if ⌊q⌋ % 2 = 0 then ⌊q⌋ else ⌊q⌋ + 1

/-- pandas DataFrame.round at the given number of decimals, as used on the
depth columns in get_smr_df: round half to even on the scaled value. -/
def pandasRound (decimals : ℕ) (q : ℚ) : ℚ :=
  (rintHalfEven (q * 10 ^ decimals) : ℚ) / 10 ^ decimals

/-- Python int() applied to a float: truncation toward zero. -/
def pyInt (q : ℚ) : ℤ := if 0 ≤ q then ⌊q⌋ else ⌈q⌉

/-! ## Config/SMR_config.py constants -/

def NULL_VALUE : ℤ := -99999

def MAX_DEPTH : ℤ := 100

def COLLECTION_NAME_POSTFIX : String := " water content profile"

def COLLECTION_TYPE : String := "hydrogeological"

def ORIGINATOR_NUMBER : ℤ := 484

def PREFERRED_COLLECTION : String := "Y"

def INTERVAL_UNIT_OF_MEASURE : String := "metre"

def ANO : ℤ := 228

def ACCESS_CODE : String := "A"

def QA_STATUS : String := "C"

def ACTIVITY_CODE : String := "A"

def SAMPLE_TYPE : String := "observation only"

def SAMPLING_METHOD : String := "field mapping survey"

def MATERIAL_CLASS : String := "groundwater"

def PROJECT_NO : ℤ := 576

def ORIGNO : ℤ := 484

def SOURCE_TYPE : String := "GA NAS"

def SOURCE : String := "\\\\prod.lan\\active\\proj\\futurex\\DCD\\Data\\Processed\\Geophysics\\SMR\\results"

def LOAD_APPROVED : String := "Y"

def PROCESS_TYPE : ℤ := 17475995

def PETROPHYSICAL_PROPERTY : String := "water content"

def UOM : String := "volume fraction"

def NUMERICAL_CONFIDENCE : String := "moderate confidence"

def METADATA_QUALITY : String := "high quality"

def SUMMARY_CONFIDENCE : String := "high confidence"

/-- Translation from bayesian percentile column names to database
terminology, in the insertion order of the Python dict lmh. -/
def lmh : List (String × String) :=
  [("p5", "BAYESIAN_LOW"), ("p50", "BAYESIAN_MEDIAN"), ("p95", "BAYESIAN_HIGH")]

/-- One entry of the BAYESIAN_CONSTANTS table.  Field names translate the
dict keys RESULT QUALIFIER, UNCERTAINTY TYPE, UNCERTAINTY VALUE,
UNCERTAINTY UOM and SP_REMARKS. -/
structure BandConstants where
  result_qualifier : String
  uncertainty_type : String
  uncertainty_value : ℤ
  uncertainty_uom : String
  sp_remarks : String
deriving DecidableEq

def BAYESIAN_LOW_CONSTANTS : BandConstants where
  result_qualifier := "Bayesian low"
  uncertainty_type := "Bayesian posterior inferred percentile point"
  uncertainty_value := 5
  uncertainty_uom := "percent"
  sp_remarks := "Water content and uncertainty inferred from inverting SMR data using Bayesian probabilistic methods. The credible interval (u) is 90%, where u = high - low."

def BAYESIAN_MEDIAN_CONSTANTS : BandConstants where
  result_qualifier := "Bayesian median"
  uncertainty_type := "Bayesian posterior inferred percentile point"
  uncertainty_value := 50
  uncertainty_uom := "percent"
  sp_remarks := "Water content and uncertainty inferred from inverting SMR data using Bayesian probabilistic methods."

def BAYESIAN_HIGH_CONSTANTS : BandConstants where
  result_qualifier := "Bayesian high"
  uncertainty_type := "Bayesian posterior inferred percentile point"
  uncertainty_value := 95
  uncertainty_uom := "percent"
  sp_remarks := "Water content and uncertainty inferred from inverting SMR data using Bayesian probabilistic methods. The credible interval (u) is 90%, where u = high - low."

/-- The BAYESIAN_CONSTANTS dict: lookup by renamed percentile column name
(none models a Python KeyError). -/
def BAYESIAN_CONSTANTS (key : String) : Option BandConstants :=
  if key = "BAYESIAN_LOW" then some BAYESIAN_LOW_CONSTANTS
  else if key = "BAYESIAN_MEDIAN" then some BAYESIAN_MEDIAN_CONSTANTS
  else if key = "BAYESIAN_HIGH" then some BAYESIAN_HIGH_CONSTANTS
  else none

/-! ## Input tables -/

/-- One row of the site metadata workbook read in main: columns
Measured section name, ENO, Dep ref point, Acq_date. -/
structure MetadataRow where
  measured_section_name : String
  eno : ℤ
  dep_ref_point : ℤ
  acq_date : String
deriving DecidableEq

/-- One row of the processed SMR measurement csv before get_smr_df:
columns site_name, depth_from, depth_to, p5, p50, p95. -/
structure SmrRawRow where
  site_name : String
  depth_from : ℚ
  depth_to : ℚ
  p5 : PyFloat
  p50 : PyFloat
  p95 : PyFloat
deriving DecidableEq

/-- One row of the measurement frame returned by get_smr_df, after the
lmh column renaming and the depth rounding. -/
structure SmrRow where
  site_name : String
  depth_from : ℚ
  depth_to : ℚ
  BAYESIAN_LOW : PyFloat
  BAYESIAN_MEDIAN : PyFloat
  BAYESIAN_HIGH : PyFloat
deriving DecidableEq

/-- Dynamic column access smr_results_row[key] for the renamed
percentile columns (none models a Python KeyError). -/
def SmrRow.lookup (r : SmrRow) (key : String) : Option PyFloat :=
  if key = "BAYESIAN_LOW" then some r.BAYESIAN_LOW
  else if key = "BAYESIAN_MEDIAN" then some r.BAYESIAN_MEDIAN
  else if key = "BAYESIAN_HIGH" then some r.BAYESIAN_HIGH
  else none

/-- The three percentile values of a row are actual numbers. -/
def SmrRow.numeric (r : SmrRow) : Prop :=
  r.BAYESIAN_LOW ≠ PyFloat.nan ∧ r.BAYESIAN_MEDIAN ≠ PyFloat.nan ∧
    r.BAYESIAN_HIGH ≠ PyFloat.nan

instance (r : SmrRow) : Decidable r.numeric := by
  unfold SmrRow.numeric
  infer_instance

/-! ## Output workbook

Each structure lists the cells of one appended worksheet row in the
order of the Python list literal; empty strings are cells left blank. -/

/-- A row of the SECTION INTERVAL COLLECTION sheet. -/
structure CollectionRow where
  section_eno : ℤ
  measured_section_name : String
  depth_reference_point_id : ℤ
  interval_collection_id : String
  collection_name : String
  collection_type : String
  originator_number : ℤ
  preferred_collection : String
  collection_source_document_id : String
  source_comments : String
deriving DecidableEq

/-- A row of the SECTION INTERVALS sheet. -/
structure IntervalRow where
  collection_no : String
  collection_name : String
  interval_no : String
  interval_id : String
  interval_start_depth : ℚ
  interval_end_depth : ℚ
  interval_unit_of_measure : String
deriving DecidableEq

/-- A row of the SAMPLES sheet. -/
structure SampleRow where
  section_eno : ℤ
  collection_name : String
  intervalno : String
  sampleno : String
  interval_id : String
  sample_id : String
  acquisition_date : String
  parent_sampleno : String
  parent_sample_id : String
  ano : ℤ
  access_code : String
  confidential_until_date : String
  qa_status : String
  activity_code : String
  sample_type : String
  sampling_method : String
  material_class : String
  procedure_no : String
  project_no : ℤ
  refid : String
  other_id : String
  specimen_storage_location : String
  storage_date : String
  comments : String
  isgn : String
  specimen_mass : String
  mass_uom : String
  source : String
deriving DecidableEq

/-- A row of the SCALAR PROPERTIES sheet. -/
structure ScalarRow where
  sampleid : String
  sample_number : String
  resultno : String
  resultid : String
  access_code : String
  confidential_until_date : String
  qa_status : String
  originator : ℤ
  source_type : String
  source : String
  load_approved : String
  process_type : ℤ
  petrophysical_property : String
  value : PyFloat
  uom : String
  result_qualifier : String
  uncertainty_type : String
  uncertainty_value : ℤ
  uncertainty_uom : String
  result_datetime : String
  observation_location : String
  remarks : String
  numerical_confidence : String
  metadata_quality : String
  summary_confidence : String
deriving DecidableEq

/-- The four worksheets of the loader template that the program fills. -/
structure Workbook where
  collection : List CollectionRow
  intervals : List IntervalRow
  samples : List SampleRow
  scalar_properties : List ScalarRow
deriving DecidableEq

def emptyWorkbook : Workbook :=
  { collection := [], intervals := [], samples := [], scalar_properties := [] }

/-- Untyped cell value, for stating which values a row does or does not
carry (Python appends rows as plain lists of values). -/
inductive Cell where
  | str : String → Cell
  | int : ℤ → Cell
  | rat : ℚ → Cell
  | pyf : PyFloat → Cell
deriving DecidableEq

/-- The cells of a SCALAR PROPERTIES row, in sheet column order. -/
def ScalarRow.cells (r : ScalarRow) : List Cell :=
  [.str r.sampleid, .str r.sample_number, .str r.resultno, .str r.resultid,
   .str r.access_code, .str r.confidential_until_date, .str r.qa_status,
   .int r.originator, .str r.source_type, .str r.source, .str r.load_approved,
   .int r.process_type, .str r.petrophysical_property, .pyf r.value,
   .str r.uom, .str r.result_qualifier, .str r.uncertainty_type,
   .int r.uncertainty_value, .str r.uncertainty_uom, .str r.result_datetime,
   .str r.observation_location, .str r.remarks, .str r.numerical_confidence,
   .str r.metadata_quality, .str r.summary_confidence]

/-! ## populate_rockprops_SMR_loader.py -/

/-- Error text of the ValueError that math.ceil raises on NaN. -/
def nanError : String := "ValueError: cannot convert float NaN to integer"

/-- round_up: rounds a number towards the right of the number line, to an
arbitrary number of decimal places, as math.ceil of the scaled value.
math.ceil raises a ValueError when its argument is NaN. -/
def round_up (n : PyFloat) (decimals : ℕ) : Except String PyFloat :=
  match n with
  | .nan => .error nanError
  | .num q =>
    let multiplier : ℚ := 10 ^ decimals
    .ok (.num ((⌈q * multiplier⌉ : ℚ) / multiplier))

/-- get_smr_df: rename the percentile columns following lmh and round the
depth columns to 2 decimals with DataFrame.round (csv reading itself is
I/O glue; the function receives the parsed rows). -/
def get_smr_df (rows : List SmrRawRow) : List SmrRow :=
  rows.map fun r =>
    { site_name := r.site_name
      depth_from := pandasRound 2 r.depth_from
      depth_to := pandasRound 2 r.depth_to
      BAYESIAN_LOW := r.p5
      BAYESIAN_MEDIAN := r.p50
      BAYESIAN_HIGH := r.p95 }

/-- add_section_interval_collection: appends one SECTION INTERVAL
COLLECTION row and returns the workbook together with the site name. -/
def add_section_interval_collection (inputs : MetadataRow) (workbook : Workbook) :
    Workbook × String :=
  let site_name := inputs.measured_section_name
  let collection_name := site_name ++ COLLECTION_NAME_POSTFIX
  let new_row : CollectionRow :=
    { section_eno := inputs.eno
      measured_section_name := inputs.measured_section_name
      depth_reference_point_id := inputs.dep_ref_point
      interval_collection_id := ""
      collection_name := collection_name
      collection_type := COLLECTION_TYPE
      originator_number := ORIGINATOR_NUMBER
      preferred_collection := PREFERRED_COLLECTION
      collection_source_document_id := ""
      source_comments := "" }
  ({ workbook with collection := workbook.collection ++ [new_row] }, site_name)

/-- Body of the band loop of add_scalar_properties for one entry of lmh:
look up the band constants and the measurement, apply round_up with 4
decimals, replace NaN by NULL_VALUE (note the order: round_up runs first),
and append one SCALAR PROPERTIES row. -/
def scalar_band_step (sample_id : String) (smr_results_row : SmrRow)
    (wb : Workbook) (kv : String × String) : Except String Workbook := do
  let bayesian_percentile := kv.2
  match BAYESIAN_CONSTANTS bayesian_percentile,
      smr_results_row.lookup bayesian_percentile with
  | some current_bayesian_constants, some v => do
    let m ← round_up v 4
    let measurement := if np_isnan m then PyFloat.num ((NULL_VALUE : ℤ) : ℚ) else m
    let new_row : ScalarRow :=
      { sampleid := sample_id
        sample_number := ""
        resultno := ""
        resultid := ""
        access_code := ACCESS_CODE
        confidential_until_date := ""
        qa_status := QA_STATUS
        originator := ORIGNO
        source_type := SOURCE_TYPE
        source := SOURCE
        load_approved := LOAD_APPROVED
        process_type := PROCESS_TYPE
        petrophysical_property := PETROPHYSICAL_PROPERTY
        value := measurement
        uom := UOM
        result_qualifier := current_bayesian_constants.result_qualifier
        uncertainty_type := current_bayesian_constants.uncertainty_type
        uncertainty_value := current_bayesian_constants.uncertainty_value
        uncertainty_uom := current_bayesian_constants.uncertainty_uom
        result_datetime := ""
        observation_location := ""
        remarks := current_bayesian_constants.sp_remarks
        numerical_confidence := NUMERICAL_CONFIDENCE
        metadata_quality := METADATA_QUALITY
        summary_confidence := SUMMARY_CONFIDENCE }
    pure { wb with scalar_properties := wb.scalar_properties ++ [new_row] }
  | _, _ => .error "KeyError"

/-- add_scalar_properties: one SCALAR PROPERTIES row per entry of lmh, in
dict order low, median, high. -/
def add_scalar_properties (workbook : Workbook) (sample_id : String)
    (smr_results_row : SmrRow) : Except String Workbook :=
  lmh.foldlM (scalar_band_step sample_id smr_results_row) workbook

/-- add_samples: appends one SAMPLES row with
sample_id = site_name + "_L" + str(idx + 1), then cascades into
add_scalar_properties. -/
def add_samples (working_info : MetadataRow) (collection_name interval_id : String)
    (workbook : Workbook) (smr_results_idx : ℕ) (smr_results_row : SmrRow) :
    Except String Workbook :=
  let sample_id := smr_results_row.site_name ++ "_L" ++ natStr (smr_results_idx + 1)
  let new_row : SampleRow :=
    { section_eno := working_info.eno
      collection_name := collection_name
      intervalno := ""
      sampleno := ""
      interval_id := interval_id
      sample_id := sample_id
      acquisition_date := working_info.acq_date
      parent_sampleno := ""
      parent_sample_id := ""
      ano := ANO
      access_code := ACCESS_CODE
      confidential_until_date := ""
      qa_status := QA_STATUS
      activity_code := ACTIVITY_CODE
      sample_type := SAMPLE_TYPE
      sampling_method := SAMPLING_METHOD
      material_class := MATERIAL_CLASS
      procedure_no := ""
      project_no := PROJECT_NO
      refid := ""
      other_id := ""
      specimen_storage_location := ""
      storage_date := ""
      comments := ""
      isgn := ""
      specimen_mass := ""
      mass_uom := ""
      source := "" }
  let wb := { workbook with samples := workbook.samples ++ [new_row] }
  add_scalar_properties wb sample_id smr_results_row

/-- The row loop of add_section_intervals over the re-indexed per-site
subset: truncate the depths with int(), stop (break) at the first row
whose truncated end depth exceeds MAX_DEPTH, otherwise append one
SECTION INTERVALS row and cascade into add_samples with the current
0-based index. -/
def intervals_loop (working_info : MetadataRow) (site_name collection_name : String) :
    Workbook → ℕ → List SmrRow → Except String Workbook
  | workbook, _, [] => .ok workbook
  | workbook, idx, row :: rest =>
    let depth_from := pyInt row.depth_from
    let depth_to := pyInt row.depth_to
    if depth_to > MAX_DEPTH then .ok workbook
    else do
      let interval_id := site_name ++ "_" ++ intStr depth_from ++ "-" ++
        intStr depth_to ++ "m"
      let new_row : IntervalRow :=
        { collection_no := ""
          collection_name := collection_name
          interval_no := ""
          interval_id := interval_id
          interval_start_depth := row.depth_from
          interval_end_depth := row.depth_to
          interval_unit_of_measure := INTERVAL_UNIT_OF_MEASURE }
      let wb := { workbook with intervals := workbook.intervals ++ [new_row] }
      let wb2 ← add_samples working_info collection_name interval_id wb idx row
      intervals_loop working_info site_name collection_name wb2 (idx + 1) rest

/-- The per-site subset of the measurement frame, in original order,
re-indexed from 0 (models the filter plus reset_index). -/
def site_results (smr_data_rows : List SmrRawRow) (site_name : String) : List SmrRow :=
  (get_smr_df smr_data_rows).filter (fun r => r.site_name == site_name)

/-- add_section_intervals: build the measurement frame, filter it to the
current site, and run the interval emission loop. -/
def add_section_intervals (working_info : MetadataRow) (site_name : String)
    (smr_data_rows : List SmrRawRow) (workbook : Workbook) : Except String Workbook :=
  let collection_name := site_name ++ COLLECTION_NAME_POSTFIX
  let current_results := site_results smr_data_rows site_name
  intervals_loop working_info site_name collection_name workbook 0 current_results

/-- One iteration of the per-site loop in main: the collection emitter
followed by the interval emitter for the returned site name. -/
def process_site (working_info : MetadataRow) (smr_data_rows : List SmrRawRow)
    (wb : Workbook) : Except String Workbook :=
  let result := add_section_interval_collection working_info wb
  add_section_intervals working_info result.2 smr_data_rows result.1

/-- The per-site loop of main over the metadata rows, in input order. -/
def main_loop (smr_data_rows : List SmrRawRow) :
    Workbook → List MetadataRow → Except String Workbook
  | wb, [] => .ok wb
  | wb, m :: rest => do
    let wb2 ← process_site m smr_data_rows wb
    main_loop smr_data_rows wb2 rest

/-- main, restricted to its verified core: populate a clean workbook from
the metadata table and the measurement table (template loading, stage
selection and saving are I/O glue). -/
def run_main (metadata : List MetadataRow) (smr_data_rows : List SmrRawRow) :
    Except String Workbook :=
  main_loop smr_data_rows emptyWorkbook metadata

/-! ## Closed forms of the emitted rows

These definitions restate, per sheet, the rows the emitters append; the
characterization lemmas below prove the emitters equal to them. -/

/-- Collection name derived for a metadata row. -/
def collName (m : MetadataRow) : String :=
  m.measured_section_name ++ COLLECTION_NAME_POSTFIX

/-- The SECTION INTERVAL COLLECTION row appended for a metadata row. -/
def mkCollectionRow (m : MetadataRow) : CollectionRow :=
  { section_eno := m.eno
    measured_section_name := m.measured_section_name
    depth_reference_point_id := m.dep_ref_point
    interval_collection_id := ""
    collection_name := collName m
    collection_type := COLLECTION_TYPE
    originator_number := ORIGINATOR_NUMBER
    preferred_collection := PREFERRED_COLLECTION
    collection_source_document_id := ""
    source_comments := "" }

/-- Interval identifier: site + "_" + truncated start + "-" + truncated
end + "m". -/
def interval_id_of (site_name : String) (r : SmrRow) : String :=
  site_name ++ "_" ++ intStr (pyInt r.depth_from) ++ "-" ++ intStr (pyInt r.depth_to) ++ "m"

/-- The SECTION INTERVALS row appended for one retained measurement row. -/
def mkIntervalRow (site_name collection_name : String) (r : SmrRow) : IntervalRow :=
  { collection_no := ""
    collection_name := collection_name
    interval_no := ""
    interval_id := interval_id_of site_name r
    interval_start_depth := r.depth_from
    interval_end_depth := r.depth_to
    interval_unit_of_measure := INTERVAL_UNIT_OF_MEASURE }

/-- Sample identifier: row site name + "_L" + str(idx + 1). -/
def sample_id_of (r : SmrRow) (idx : ℕ) : String :=
  r.site_name ++ "_L" ++ natStr (idx + 1)

/-- The SAMPLES row appended for one retained measurement row. -/
def mkSampleRow (working_info : MetadataRow) (collection_name interval_id : String)
    (idx : ℕ) (r : SmrRow) : SampleRow :=
  { section_eno := working_info.eno
    collection_name := collection_name
    intervalno := ""
    sampleno := ""
    interval_id := interval_id
    sample_id := sample_id_of r idx
    acquisition_date := working_info.acq_date
    parent_sampleno := ""
    parent_sample_id := ""
    ano := ANO
    access_code := ACCESS_CODE
    confidential_until_date := ""
    qa_status := QA_STATUS
    activity_code := ACTIVITY_CODE
    sample_type := SAMPLE_TYPE
    sampling_method := SAMPLING_METHOD
    material_class := MATERIAL_CLASS
    procedure_no := ""
    project_no := PROJECT_NO
    refid := ""
    other_id := ""
    specimen_storage_location := ""
    storage_date := ""
    comments := ""
    isgn := ""
    specimen_mass := ""
    mass_uom := ""
    source := "" }

/-- Value emitted for a numeric measurement: round_up to 4 decimals. -/
def scalarValue (q : ℚ) : ℚ := (⌈q * 10 ^ 4⌉ : ℚ) / 10 ^ 4

/-- The SCALAR PROPERTIES row for a sample, a value and a band entry. -/
def mkScalarRow (sample_id : String) (v : PyFloat) (c : BandConstants) : ScalarRow :=
  { sampleid := sample_id
    sample_number := ""
    resultno := ""
    resultid := ""
    access_code := ACCESS_CODE
    confidential_until_date := ""
    qa_status := QA_STATUS
    originator := ORIGNO
    source_type := SOURCE_TYPE
    source := SOURCE
    load_approved := LOAD_APPROVED
    process_type := PROCESS_TYPE
    petrophysical_property := PETROPHYSICAL_PROPERTY
    value := v
    uom := UOM
    result_qualifier := c.result_qualifier
    uncertainty_type := c.uncertainty_type
    uncertainty_value := c.uncertainty_value
    uncertainty_uom := c.uncertainty_uom
    result_datetime := ""
    observation_location := ""
    remarks := c.sp_remarks
    numerical_confidence := NUMERICAL_CONFIDENCE
    metadata_quality := METADATA_QUALITY
    summary_confidence := SUMMARY_CONFIDENCE }

/-- The three SCALAR PROPERTIES rows per sample, in the fixed band order
low, median, high, for a fully numeric measurement row. -/
def scalarRowsFor (sample_id : String) (r : SmrRow) : List ScalarRow :=
  [mkScalarRow sample_id (.num (scalarValue r.BAYESIAN_LOW.toRat)) BAYESIAN_LOW_CONSTANTS,
   mkScalarRow sample_id (.num (scalarValue r.BAYESIAN_MEDIAN.toRat)) BAYESIAN_MEDIAN_CONSTANTS,
   mkScalarRow sample_id (.num (scalarValue r.BAYESIAN_HIGH.toRat)) BAYESIAN_HIGH_CONSTANTS]

/-- The retained depth bins of a per-site subset: the longest prefix of
rows whose truncated end depth does not exceed MAX_DEPTH (the loop breaks
at the first violation). -/
def retained (rows : List SmrRow) : List SmrRow :=
  rows.takeWhile (fun r => decide (pyInt r.depth_to ≤ MAX_DEPTH))

/-- Retained depth bins of a metadata row in one run. -/
def retainedFor (smr_data_rows : List SmrRawRow) (m : MetadataRow) : List SmrRow :=
  retained (site_results smr_data_rows m.measured_section_name)

/-! ## Characterization of the emitters -/

theorem except_bind_ok {α β : Type} {x : Except String α} {f : α → Except String β}
    {b : β} (h : x >>= f = .ok b) : ∃ a, x = .ok a ∧ f a = .ok b := by
  cases x with
  | error e => simp [Bind.bind, Except.bind] at h
  | ok a => exact ⟨a, rfl, by simpa [Bind.bind, Except.bind] using h⟩

theorem add_section_interval_collection_eq (inputs : MetadataRow) (wb : Workbook) :
    add_section_interval_collection inputs wb =
      ({ wb with collection := wb.collection ++ [mkCollectionRow inputs] },
        inputs.measured_section_name) := rfl

theorem add_scalar_properties_numeric (wb : Workbook) (sid : String) (r : SmrRow)
    (h : r.numeric) :
    add_scalar_properties wb sid r =
      .ok { wb with scalar_properties := wb.scalar_properties ++ scalarRowsFor sid r } := by
  obtain ⟨h1, h2, h3⟩ := h
  rcases hL : r.BAYESIAN_LOW with _ | a
  · exact absurd hL h1
  rcases hM : r.BAYESIAN_MEDIAN with _ | b
  · exact absurd hM h2
  rcases hH : r.BAYESIAN_HIGH with _ | c
  · exact absurd hH h3
  simp [add_scalar_properties, lmh, scalar_band_step, BAYESIAN_CONSTANTS, SmrRow.lookup,
    round_up, np_isnan, hL, hM, hH, scalarRowsFor, mkScalarRow, scalarValue, PyFloat.toRat,
    List.foldlM, Bind.bind, Except.bind, Pure.pure, Except.pure]

theorem add_scalar_properties_ok {wb : Workbook} {sid : String} {r : SmrRow}
    {wb2 : Workbook} (h : add_scalar_properties wb sid r = .ok wb2) : r.numeric := by
  constructor
  · intro hL
    simp [add_scalar_properties, lmh, scalar_band_step, BAYESIAN_CONSTANTS, SmrRow.lookup,
      round_up, hL, List.foldlM, Bind.bind, Except.bind, Pure.pure, Except.pure] at h
  constructor
  · intro hM
    rcases hL : r.BAYESIAN_LOW with _ | a
    · simp [add_scalar_properties, lmh, scalar_band_step, BAYESIAN_CONSTANTS, SmrRow.lookup,
        round_up, hL, List.foldlM, Bind.bind, Except.bind, Pure.pure, Except.pure] at h
    · simp [add_scalar_properties, lmh, scalar_band_step, BAYESIAN_CONSTANTS, SmrRow.lookup,
        round_up, np_isnan, hL, hM, List.foldlM, Bind.bind, Except.bind, Pure.pure, Except.pure] at h
  · intro hH
    rcases hL : r.BAYESIAN_LOW with _ | a
    · simp [add_scalar_properties, lmh, scalar_band_step, BAYESIAN_CONSTANTS, SmrRow.lookup,
        round_up, hL, List.foldlM, Bind.bind, Except.bind, Pure.pure, Except.pure] at h
    rcases hM : r.BAYESIAN_MEDIAN with _ | b
    · simp [add_scalar_properties, lmh, scalar_band_step, BAYESIAN_CONSTANTS, SmrRow.lookup,
        round_up, np_isnan, hL, hM, List.foldlM, Bind.bind, Except.bind, Pure.pure, Except.pure] at h
    · simp [add_scalar_properties, lmh, scalar_band_step, BAYESIAN_CONSTANTS, SmrRow.lookup,
        round_up, np_isnan, hL, hM, hH, List.foldlM, Bind.bind, Except.bind, Pure.pure, Except.pure] at h

/-- The SECTION INTERVALS rows emitted for a list of retained bins. -/
def site_interval_rows (site_name collection_name : String) (rows : List SmrRow) :
    List IntervalRow :=
  rows.map (mkIntervalRow site_name collection_name)

/-- The SAMPLES rows emitted for a list of retained bins, indexed from idx0. -/
def site_sample_rows (working_info : MetadataRow) (site_name collection_name : String)
    (idx0 : ℕ) (rows : List SmrRow) : List SampleRow :=
  (List.enumFrom idx0 rows).map fun p =>
    mkSampleRow working_info collection_name (interval_id_of site_name p.2) p.1 p.2

/-- The SCALAR PROPERTIES rows emitted for a list of retained bins. -/
def site_scalar_rows (idx0 : ℕ) (rows : List SmrRow) : List ScalarRow :=
  (List.enumFrom idx0 rows).flatMap fun p => scalarRowsFor (sample_id_of p.2 p.1) p.2

/-- Effect of the interval emission loop on the workbook. -/
def site_sheets_append (working_info : MetadataRow) (site_name collection_name : String)
    (idx0 : ℕ) (rows : List SmrRow) (wb : Workbook) : Workbook :=
  { collection := wb.collection
    intervals := wb.intervals ++ site_interval_rows site_name collection_name rows
    samples := wb.samples ++ site_sample_rows working_info site_name collection_name idx0 rows
    scalar_properties := wb.scalar_properties ++ site_scalar_rows idx0 rows }

theorem retained_cons_stop {row : SmrRow} {rest : List SmrRow}
    (hd : pyInt row.depth_to > MAX_DEPTH) : retained (row :: rest) = [] := by
  have hfalse : ¬ (pyInt row.depth_to ≤ MAX_DEPTH) := by omega
  simp [retained, List.takeWhile_cons, hfalse]

theorem retained_cons_go {row : SmrRow} {rest : List SmrRow}
    (hd : pyInt row.depth_to ≤ MAX_DEPTH) :
    retained (row :: rest) = row :: retained rest := by
  simp [retained, List.takeWhile_cons, hd]

theorem add_samples_numeric (working_info : MetadataRow) (cn iid : String)
    (wb : Workbook) (idx : ℕ) (r : SmrRow) (h : r.numeric) :
    add_samples working_info cn iid wb idx r = .ok
      { wb with
        samples := wb.samples ++ [mkSampleRow working_info cn iid idx r]
        scalar_properties := wb.scalar_properties ++ scalarRowsFor (sample_id_of r idx) r } := by
  unfold add_samples
  rw [add_scalar_properties_numeric _ _ _ h]
  rfl

theorem add_samples_ok {working_info : MetadataRow} {cn iid : String} {wb : Workbook}
    {idx : ℕ} {r : SmrRow} {wb2 : Workbook}
    (h : add_samples working_info cn iid wb idx r = .ok wb2) : r.numeric := by
  unfold add_samples at h
  exact add_scalar_properties_ok h

theorem intervals_loop_numeric (working_info : MetadataRow) (s cn : String)
    (rows : List SmrRow) (h : ∀ r ∈ retained rows, r.numeric) :
    ∀ (wb : Workbook) (idx0 : ℕ),
      intervals_loop working_info s cn wb idx0 rows =
        .ok (site_sheets_append working_info s cn idx0 (retained rows) wb) := by
  induction rows with
  | nil =>
    intro wb idx0
    simp [intervals_loop, retained, site_sheets_append, site_interval_rows,
      site_sample_rows, site_scalar_rows, List.enumFrom]
  | cons row rest ih =>
    intro wb idx0
    by_cases hd : pyInt row.depth_to > MAX_DEPTH
    · rw [retained_cons_stop hd]
      simp only [intervals_loop]
      rw [if_pos hd]
      simp [site_sheets_append, site_interval_rows, site_sample_rows, site_scalar_rows,
        List.enumFrom]
    · have hle : pyInt row.depth_to ≤ MAX_DEPTH := by omega
      have hnum : row.numeric := by
        apply h
        rw [retained_cons_go hle]
        exact List.mem_cons_self row (retained rest)
      have hrest : ∀ r ∈ retained rest, r.numeric := by
        intro r hr
        apply h
        rw [retained_cons_go hle]
        exact List.mem_cons_of_mem row hr
      rw [retained_cons_go hle]
      simp only [intervals_loop]
      rw [if_neg hd]
      rw [add_samples_numeric working_info cn
        (s ++ "_" ++ intStr (pyInt row.depth_from) ++ "-" ++ intStr (pyInt row.depth_to) ++ "m")
        _ idx0 row hnum]
      simp only [Bind.bind, Except.bind]
      rw [ih hrest _ (idx0 + 1)]
      simp [site_sheets_append, site_interval_rows, site_sample_rows, site_scalar_rows,
        mkIntervalRow, interval_id_of, List.enumFrom, List.append_assoc]

theorem intervals_loop_ok {working_info : MetadataRow} {s cn : String}
    {rows : List SmrRow} {wb : Workbook} {idx0 : ℕ} {wb2 : Workbook}
    (h : intervals_loop working_info s cn wb idx0 rows = .ok wb2) :
    ∀ r ∈ retained rows, r.numeric := by
  induction rows generalizing wb idx0 with
  | nil => simp [retained]
  | cons row rest ih =>
    by_cases hd : pyInt row.depth_to > MAX_DEPTH
    · rw [retained_cons_stop hd]
      simp
    · have hle : pyInt row.depth_to ≤ MAX_DEPTH := by omega
      rw [retained_cons_go hle]
      simp only [intervals_loop] at h
      rw [if_neg hd] at h
      obtain ⟨w1, hw1, hrest⟩ := except_bind_ok h
      intro r hr
      rcases List.mem_cons.1 hr with hcase | hr2
      · rw [hcase]
        exact add_samples_ok hw1
      · exact ih hrest r hr2

/-- Effect of one full site pass (collection emitter plus interval
emitter) on the workbook. -/
def process_site_output (m : MetadataRow) (smr_data_rows : List SmrRawRow)
    (wb : Workbook) : Workbook :=
  { collection := wb.collection ++ [mkCollectionRow m]
    intervals := wb.intervals ++
      site_interval_rows m.measured_section_name (collName m) (retainedFor smr_data_rows m)
    samples := wb.samples ++
      site_sample_rows m m.measured_section_name (collName m) 0 (retainedFor smr_data_rows m)
    scalar_properties := wb.scalar_properties ++
      site_scalar_rows 0 (retainedFor smr_data_rows m) }

theorem process_site_numeric (m : MetadataRow) (smr_data_rows : List SmrRawRow)
    (wb : Workbook) (h : ∀ r ∈ retainedFor smr_data_rows m, r.numeric) :
    process_site m smr_data_rows wb = .ok (process_site_output m smr_data_rows wb) := by
  unfold process_site add_section_intervals
  rw [add_section_interval_collection_eq]
  rw [intervals_loop_numeric m m.measured_section_name
    (m.measured_section_name ++ COLLECTION_NAME_POSTFIX)
    (site_results smr_data_rows m.measured_section_name) h _ 0]
  rfl

theorem process_site_ok {m : MetadataRow} {smr_data_rows : List SmrRawRow}
    {wb wb2 : Workbook} (h : process_site m smr_data_rows wb = .ok wb2) :
    (∀ r ∈ retainedFor smr_data_rows m, r.numeric) ∧
      wb2 = process_site_output m smr_data_rows wb := by
  have hnum : ∀ r ∈ retainedFor smr_data_rows m, r.numeric := by
    unfold process_site add_section_intervals at h
    exact intervals_loop_ok h
  refine ⟨hnum, ?_⟩
  rw [process_site_numeric m smr_data_rows wb hnum] at h
  exact (Except.ok.injEq _ _ ▸ h).symm

/-- All percentile values of all retained bins of all sites are numbers
(the condition under which a run completes without the NaN ValueError). -/
def all_numeric (metadata : List MetadataRow) (smr_data_rows : List SmrRawRow) : Prop :=
  ∀ m ∈ metadata, ∀ r ∈ retainedFor smr_data_rows m, r.numeric

instance (metadata : List MetadataRow) (smr_data_rows : List SmrRawRow) :
    Decidable (all_numeric metadata smr_data_rows) := by
  unfold all_numeric
  infer_instance

/-- Sheet-wise concatenation of two workbooks. -/
def wbAppend (w₁ w₂ : Workbook) : Workbook :=
  { collection := w₁.collection ++ w₂.collection
    intervals := w₁.intervals ++ w₂.intervals
    samples := w₁.samples ++ w₂.samples
    scalar_properties := w₁.scalar_properties ++ w₂.scalar_properties }

/-- The workbook a completed run produces. -/
def final_workbook (metadata : List MetadataRow) (smr_data_rows : List SmrRawRow) :
    Workbook :=
  { collection := metadata.map mkCollectionRow
    intervals := metadata.flatMap fun m =>
      site_interval_rows m.measured_section_name (collName m) (retainedFor smr_data_rows m)
    samples := metadata.flatMap fun m =>
      site_sample_rows m m.measured_section_name (collName m) 0 (retainedFor smr_data_rows m)
    scalar_properties := metadata.flatMap fun m =>
      site_scalar_rows 0 (retainedFor smr_data_rows m) }

theorem main_loop_numeric (metadata : List MetadataRow) (smr_data_rows : List SmrRawRow)
    (h : all_numeric metadata smr_data_rows) :
    ∀ wb : Workbook, main_loop smr_data_rows wb metadata =
      .ok (wbAppend wb (final_workbook metadata smr_data_rows)) := by
  induction metadata with
  | nil =>
    intro wb
    simp [main_loop, final_workbook, wbAppend]
  | cons m rest ih =>
    intro wb
    have hm : ∀ r ∈ retainedFor smr_data_rows m, r.numeric :=
      h m (List.mem_cons_self m rest)
    have hrest : all_numeric rest smr_data_rows := fun m2 hm2 =>
      h m2 (List.mem_cons_of_mem m hm2)
    simp only [main_loop]
    rw [process_site_numeric m smr_data_rows wb hm]
    simp only [Bind.bind, Except.bind]
    rw [ih hrest (process_site_output m smr_data_rows wb)]
    simp [wbAppend, final_workbook, process_site_output, List.append_assoc]

theorem main_loop_ok {metadata : List MetadataRow} {smr_data_rows : List SmrRawRow}
    {wb wb2 : Workbook} (h : main_loop smr_data_rows wb metadata = .ok wb2) :
    all_numeric metadata smr_data_rows ∧
      wb2 = wbAppend wb (final_workbook metadata smr_data_rows) := by
  induction metadata generalizing wb with
  | nil =>
    simp only [main_loop] at h
    constructor
    · intro m hm
      simp at hm
    · have hw : wb = wb2 := Except.ok.injEq _ _ ▸ h
      rw [← hw]
      simp [wbAppend, final_workbook]
  | cons m rest ih =>
    simp only [main_loop] at h
    obtain ⟨w1, hw1, hrest⟩ := except_bind_ok h
    obtain ⟨hnum1, hout⟩ := process_site_ok hw1
    obtain ⟨hnumr, houtr⟩ := ih hrest
    constructor
    · intro m2 hm2
      rcases List.mem_cons.1 hm2 with hcase | hm3
      · rw [hcase]
        exact hnum1
      · exact hnumr m2 hm3
    · rw [houtr, hout]
      simp [wbAppend, final_workbook, process_site_output, List.append_assoc]

theorem run_main_numeric (metadata : List MetadataRow) (smr_data_rows : List SmrRawRow)
    (h : all_numeric metadata smr_data_rows) :
    run_main metadata smr_data_rows = .ok (final_workbook metadata smr_data_rows) := by
  unfold run_main
  rw [main_loop_numeric metadata smr_data_rows h emptyWorkbook]
  simp [wbAppend, emptyWorkbook]

theorem run_main_ok {metadata : List MetadataRow} {smr_data_rows : List SmrRawRow}
    {wb2 : Workbook} (h : run_main metadata smr_data_rows = .ok wb2) :
    all_numeric metadata smr_data_rows ∧
      wb2 = final_workbook metadata smr_data_rows := by
  obtain ⟨hnum, hout⟩ := main_loop_ok h
  refine ⟨hnum, ?_⟩
  rw [hout]
  simp [wbAppend, emptyWorkbook]

/-! ## Row counting and identifier uniqueness -/

theorem site_interval_rows_length (s cn : String) (rows : List SmrRow) :
    (site_interval_rows s cn rows).length = rows.length := by
  simp [site_interval_rows]

theorem site_sample_rows_length (wi : MetadataRow) (s cn : String) (idx0 : ℕ)
    (rows : List SmrRow) :
    (site_sample_rows wi s cn idx0 rows).length = rows.length := by
  simp [site_sample_rows]

theorem site_scalar_rows_length (idx0 : ℕ) (rows : List SmrRow) :
    (site_scalar_rows idx0 rows).length = 3 * rows.length := by
  induction rows generalizing idx0 with
  | nil => simp [site_scalar_rows, List.enumFrom]
  | cons row rest ih =>
    have := ih (idx0 + 1)
    simp [site_scalar_rows, List.enumFrom, scalarRowsFor] at this ⊢
    omega

theorem countP_eq_one_of_nodup_map {α β : Type} [DecidableEq β]
    (f : α → β) {l : List α} (hnd : (l.map f).Nodup) {x : α} (hx : x ∈ l) :
    l.countP (fun y => decide (f y = f x)) = 1 := by
  have h1 : l.countP (fun y => decide (f y = f x))
      = (l.map f).countP (fun b => decide (b = f x)) := by
    rw [List.countP_map]
    rfl
  have h2 : (l.map f).countP (fun b => decide (b = f x)) = (l.map f).count (f x) := by
    rw [List.count_eq_countP]
    rfl
  rw [h1, h2]
  exact List.count_eq_one_of_mem hnd (List.mem_map_of_mem f hx)

theorem site_results_site_name {smr_data_rows : List SmrRawRow} {nm : String}
    {r : SmrRow} (h : r ∈ site_results smr_data_rows nm) : r.site_name = nm := by
  have := List.of_mem_filter h
  simpa using this

theorem retainedFor_site_name {smr_data_rows : List SmrRawRow} {m : MetadataRow}
    {r : SmrRow} (h : r ∈ retainedFor smr_data_rows m) :
    r.site_name = m.measured_section_name :=
  site_results_site_name ((List.takeWhile_prefix _).sublist.subset h)

theorem site_sample_rows_map_id (wi : MetadataRow) (nm cn : String) :
    ∀ (rows : List SmrRow), (∀ r ∈ rows, r.site_name = nm) → ∀ (idx0 : ℕ),
      (site_sample_rows wi nm cn idx0 rows).map (fun s => s.sample_id)
        = (List.range rows.length).map (fun i => nm ++ "_L" ++ natStr (idx0 + i + 1)) := by
  intro rows
  induction rows with
  | nil => intro _ idx0; simp [site_sample_rows, List.enumFrom]
  | cons row rest ih =>
    intro hsite idx0
    have hhead : row.site_name = nm := hsite row (List.mem_cons_self row rest)
    have htail := ih (fun r hr => hsite r (List.mem_cons_of_mem row hr)) (idx0 + 1)
    simp only [site_sample_rows] at htail ⊢
    rw [List.map_map] at htail
    simp only [List.enumFrom, List.map_cons, List.length_cons,
      List.range_succ_eq_map, List.map_map, List.cons.injEq]
    refine ⟨by simp [mkSampleRow, sample_id_of, hhead], ?_⟩
    rw [htail]
    apply List.map_congr_left
    intro i _
    have harith : idx0 + 1 + i + 1 = idx0 + (i + 1) + 1 := by omega
    simp only [Function.comp]
    rw [harith]

/-- Sample identifiers of one site pass, 1-based over the retained bins. -/
theorem retained_sample_ids (m : MetadataRow) (smr_data_rows : List SmrRawRow) :
    (site_sample_rows m m.measured_section_name (collName m) 0
        (retainedFor smr_data_rows m)).map (fun s => s.sample_id)
      = (List.range (retainedFor smr_data_rows m).length).map
          (fun i => m.measured_section_name ++ "_L" ++ natStr (i + 1)) := by
  rw [site_sample_rows_map_id m m.measured_section_name (collName m)
    (retainedFor smr_data_rows m) (fun r hr => retainedFor_site_name hr) 0]
  apply List.map_congr_left
  intro i _
  have harith : 0 + i + 1 = i + 1 := by omega
  rw [harith]

theorem range_tag_nodup (nm : String) (N : ℕ) :
    ((List.range N).map (fun i => nm ++ "_L" ++ natStr (i + 1))).Nodup := by
  refine List.Nodup.map ?_ (List.nodup_range N)
  intro i j hij
  have := (sample_tag_inj hij).2
  omega

theorem collName_nodup {metadata : List MetadataRow}
    (h : (metadata.map (fun m => m.measured_section_name)).Nodup) :
    (metadata.map collName).Nodup := by
  have heq : metadata.map collName
      = (metadata.map (fun m => m.measured_section_name)).map
          (fun s => s ++ COLLECTION_NAME_POSTFIX) := by
    simp [collName, Function.comp]
  rw [heq]
  exact h.map (fun s₁ s₂ hs => append_right_inj hs)

theorem final_collection_names (metadata : List MetadataRow) (smr_data_rows : List SmrRawRow) :
    ((final_workbook metadata smr_data_rows).collection.map
      (fun c => c.collection_name)) = metadata.map collName := by
  simp [final_workbook, mkCollectionRow, Function.comp]

theorem final_sample_ids_nodup (metadata : List MetadataRow) (smr_data_rows : List SmrRawRow)
    (hnd : (metadata.map (fun m => m.measured_section_name)).Nodup) :
    ((final_workbook metadata smr_data_rows).samples.map (fun s => s.sample_id)).Nodup := by
  have hmap : ((final_workbook metadata smr_data_rows).samples.map (fun s => s.sample_id))
      = (metadata.map (fun m =>
          (List.range (retainedFor smr_data_rows m).length).map
            (fun i => m.measured_section_name ++ "_L" ++ natStr (i + 1)))).flatten := by
    simp only [final_workbook]
    rw [List.map_flatMap, List.flatMap_def]
    congr 1
    apply List.map_congr_left
    intro m _
    exact retained_sample_ids m smr_data_rows
  rw [hmap, List.nodup_flatten]
  constructor
  · intro ids hids
    obtain ⟨m, _, rfl⟩ := List.mem_map.1 hids
    exact range_tag_nodup m.measured_section_name (retainedFor smr_data_rows m).length
  · rw [List.pairwise_map]
    have hpw : metadata.Pairwise
        (fun m₁ m₂ => m₁.measured_section_name ≠ m₂.measured_section_name) :=
      List.pairwise_map.1 hnd
    refine hpw.imp ?_
    intro m₁ m₂ hne x hx₁ hx₂
    obtain ⟨i, _, hi⟩ := List.mem_map.1 hx₁
    obtain ⟨j, _, hj⟩ := List.mem_map.1 hx₂
    exact hne (sample_tag_inj (hi.trans hj.symm)).1

theorem add_section_intervals_numeric (working_info : MetadataRow) (s : String)
    (smr_data_rows : List SmrRawRow) (wb : Workbook)
    (h : ∀ r ∈ retained (site_results smr_data_rows s), r.numeric) :
    add_section_intervals working_info s smr_data_rows wb = .ok
      (site_sheets_append working_info s (s ++ COLLECTION_NAME_POSTFIX) 0
        (retained (site_results smr_data_rows s)) wb) := by
  unfold add_section_intervals
  exact intervals_loop_numeric working_info s (s ++ COLLECTION_NAME_POSTFIX)
    (site_results smr_data_rows s) h wb 0

theorem add_section_intervals_ok {working_info : MetadataRow} {s : String}
    {smr_data_rows : List SmrRawRow} {wb wb2 : Workbook}
    (h : add_section_intervals working_info s smr_data_rows wb = .ok wb2) :
    (∀ r ∈ retained (site_results smr_data_rows s), r.numeric) ∧
      wb2 = site_sheets_append working_info s (s ++ COLLECTION_NAME_POSTFIX) 0
        (retained (site_results smr_data_rows s)) wb := by
  unfold add_section_intervals at h
  have hnum := intervals_loop_ok h
  refine ⟨hnum, ?_⟩
  rw [intervals_loop_numeric working_info s (s ++ COLLECTION_NAME_POSTFIX)
    (site_results smr_data_rows s) hnum wb 0] at h
  exact (Except.ok.injEq _ _ ▸ h).symm

theorem mem_final_intervals {metadata : List MetadataRow} {smr_data_rows : List SmrRawRow}
    {x : IntervalRow} (hx : x ∈ (final_workbook metadata smr_data_rows).intervals) :
    ∃ m ∈ metadata, x.collection_name = collName m := by
  simp only [final_workbook] at hx
  obtain ⟨m, hm, hx2⟩ := List.mem_flatMap.1 hx
  simp only [site_interval_rows] at hx2
  obtain ⟨r, _, hr⟩ := List.mem_map.1 hx2
  exact ⟨m, hm, by rw [← hr]; rfl⟩

theorem mem_final_samples {metadata : List MetadataRow} {smr_data_rows : List SmrRawRow}
    {x : SampleRow} (hx : x ∈ (final_workbook metadata smr_data_rows).samples) :
    ∃ m ∈ metadata, x.collection_name = collName m := by
  simp only [final_workbook] at hx
  obtain ⟨m, hm, hx2⟩ := List.mem_flatMap.1 hx
  simp only [site_sample_rows] at hx2
  obtain ⟨p, _, hp⟩ := List.mem_map.1 hx2
  exact ⟨m, hm, by rw [← hp]; rfl⟩

theorem mem_final_scalars {metadata : List MetadataRow} {smr_data_rows : List SmrRawRow}
    {x : ScalarRow} (hx : x ∈ (final_workbook metadata smr_data_rows).scalar_properties) :
    ∃ s ∈ (final_workbook metadata smr_data_rows).samples, s.sample_id = x.sampleid := by
  simp only [final_workbook] at hx ⊢
  obtain ⟨m, hm, hx2⟩ := List.mem_flatMap.1 hx
  simp only [site_scalar_rows] at hx2
  obtain ⟨p, hp, hx3⟩ := List.mem_flatMap.1 hx2
  have hsid : x.sampleid = sample_id_of p.2 p.1 := by
    simp only [scalarRowsFor, List.mem_cons, List.not_mem_nil, or_false] at hx3
    rcases hx3 with h | h | h <;> (rw [h]; rfl)
  refine ⟨mkSampleRow m (collName m)
    (interval_id_of m.measured_section_name p.2) p.1 p.2, ?_, ?_⟩
  · refine List.mem_flatMap.2 ⟨m, hm, ?_⟩
    simp only [site_sample_rows]
    exact List.mem_map.2 ⟨p, hp, rfl⟩
  · rw [hsid]
    rfl

theorem final_intervals_trace (metadata : List MetadataRow) (smr_data_rows : List SmrRawRow)
    (hnd : (metadata.map (fun m => m.measured_section_name)).Nodup) :
    ∀ x ∈ (final_workbook metadata smr_data_rows).intervals,
      (final_workbook metadata smr_data_rows).collection.countP
        (fun c => decide (c.collection_name = x.collection_name)) = 1 := by
  intro x hx
  obtain ⟨m, hm, hname⟩ := mem_final_intervals hx
  rw [hname]
  have hmem : mkCollectionRow m ∈ (final_workbook metadata smr_data_rows).collection := by
    simp only [final_workbook]
    exact List.mem_map_of_mem mkCollectionRow hm
  have hnd2 : ((final_workbook metadata smr_data_rows).collection.map
      (fun c => c.collection_name)).Nodup := by
    rw [final_collection_names]
    exact collName_nodup hnd
  have hcount := countP_eq_one_of_nodup_map
    (fun c : CollectionRow => c.collection_name) hnd2 hmem
  exact hcount

theorem final_samples_trace (metadata : List MetadataRow) (smr_data_rows : List SmrRawRow)
    (hnd : (metadata.map (fun m => m.measured_section_name)).Nodup) :
    ∀ x ∈ (final_workbook metadata smr_data_rows).samples,
      (final_workbook metadata smr_data_rows).collection.countP
        (fun c => decide (c.collection_name = x.collection_name)) = 1 := by
  intro x hx
  obtain ⟨m, hm, hname⟩ := mem_final_samples hx
  rw [hname]
  have hmem : mkCollectionRow m ∈ (final_workbook metadata smr_data_rows).collection := by
    simp only [final_workbook]
    exact List.mem_map_of_mem mkCollectionRow hm
  have hnd2 : ((final_workbook metadata smr_data_rows).collection.map
      (fun c => c.collection_name)).Nodup := by
    rw [final_collection_names]
    exact collName_nodup hnd
  exact countP_eq_one_of_nodup_map (fun c : CollectionRow => c.collection_name) hnd2 hmem

theorem final_scalars_trace (metadata : List MetadataRow) (smr_data_rows : List SmrRawRow)
    (hnd : (metadata.map (fun m => m.measured_section_name)).Nodup) :
    ∀ x ∈ (final_workbook metadata smr_data_rows).scalar_properties,
      (final_workbook metadata smr_data_rows).samples.countP
        (fun s => decide (s.sample_id = x.sampleid)) = 1 := by
  intro x hx
  obtain ⟨s, hs, hsid⟩ := mem_final_scalars hx
  rw [← hsid]
  exact countP_eq_one_of_nodup_map (fun s : SampleRow => s.sample_id)
    (final_sample_ids_nodup metadata smr_data_rows hnd) hs

instance exceptDecEq {ε α : Type} [DecidableEq ε] [DecidableEq α] :
    DecidableEq (Except ε α)
  | .error a, .error b =>
    if h : a = b then .isTrue (by rw [h]) else .isFalse (by simp [h])
  | .error _, .ok _ => .isFalse (by simp)
  | .ok _, .error _ => .isFalse (by simp)
  | .ok a, .ok b =>
    if h : a = b then .isTrue (by rw [h]) else .isFalse (by simp [h])

/-! ## Claims -/

def C4row : SmrRow :=
  { site_name := "S4"
    depth_from := 0
    depth_to := 1
    BAYESIAN_LOW := .nan
    BAYESIAN_MEDIAN := .num (1/2)
    BAYESIAN_HIGH := .num (1/2) }

/-- C4: the claim says a NaN measurement is replaced by the sentinel
-99999 with rounding skipped and the run continuing; in the code the
np.isnan check comes only after round_up, and math.ceil raises a
ValueError on NaN, so the emitter errors instead of emitting the
sentinel.  This theorem evaluates the emitter at a NaN measurement. -/
theorem C4_nan_measurement_raises :
    np_isnan C4row.BAYESIAN_LOW = true ∧
    add_scalar_properties emptyWorkbook "S4_L1" C4row = .error nanError :=
  ⟨rfl, by with_unfolding_all decide⟩

def C5raw : SmrRawRow :=
  { site_name := "S5"
    depth_from := 1/200
    depth_to := 1
    p5 := .num 0
    p50 := .num 0
    p95 := .num 0 }

/-- C5 counterexample: at depth value 0.005 the frame builder rounds the
depth to 0 (pandas half-to-even rounding), while the round_up ceiling
rule at 2 decimals yields 0.01, so not every rounding in the program is
the ceiling rule. -/
theorem C5_counterexample :
    (get_smr_df [C5raw]).map (fun r => r.depth_from)
      = [0] ∧
    round_up (.num (1/200)) 2 = .ok (.num (1/100)) ∧
    (0 : ℚ) ≠ 1/100 :=
  ⟨by with_unfolding_all decide, by with_unfolding_all decide, by with_unfolding_all decide⟩

/-- C5 (amended): round_up on a number is the ceiling rule
ceil(value * 10 ^ decimals) / 10 ^ decimals, and the scalar emitter
applies it at 4 decimals to every emitted measurement value; the depth
columns, however, are rounded at frame-build time to 2 decimals by
pandas round, the half-to-even rule, which differs from the ceiling rule
(for instance at 0.005). -/
theorem C5_rounding_rules (q : ℚ) (d : ℕ) (rows : List SmrRawRow) (wb : Workbook)
    (sid : String) (r : SmrRow) (h : r.numeric) :
    round_up (.num q) d = .ok (.num ((⌈q * 10 ^ d⌉ : ℚ) / 10 ^ d)) ∧
    (get_smr_df rows).map (fun x => x.depth_from)
      = rows.map (fun x => pandasRound 2 x.depth_from) ∧
    (get_smr_df rows).map (fun x => x.depth_to)
      = rows.map (fun x => pandasRound 2 x.depth_to) ∧
    add_scalar_properties wb sid r = .ok { wb with scalar_properties :=
      wb.scalar_properties ++
        [mkScalarRow sid (.num ((⌈r.BAYESIAN_LOW.toRat * 10 ^ 4⌉ : ℚ) / 10 ^ 4))
            BAYESIAN_LOW_CONSTANTS,
         mkScalarRow sid (.num ((⌈r.BAYESIAN_MEDIAN.toRat * 10 ^ 4⌉ : ℚ) / 10 ^ 4))
            BAYESIAN_MEDIAN_CONSTANTS,
         mkScalarRow sid (.num ((⌈r.BAYESIAN_HIGH.toRat * 10 ^ 4⌉ : ℚ) / 10 ^ 4))
            BAYESIAN_HIGH_CONSTANTS] } ∧
    pandasRound 2 (1/200) ≠ (⌈(1/200 : ℚ) * 10 ^ 2⌉ : ℚ) / 10 ^ 2 := by
  refine ⟨rfl, by simp [get_smr_df], by simp [get_smr_df], ?_, by with_unfolding_all decide⟩
  exact add_scalar_properties_numeric wb sid r h

def C5wrow : SmrRow :=
  { site_name := "S5w"
    depth_from := 3
    depth_to := 4
    BAYESIAN_LOW := .num (1/3)
    BAYESIAN_MEDIAN := .num (1/2)
    BAYESIAN_HIGH := .num (2/3) }

/-- C5 witness at concrete inputs. -/
theorem C5_witness :
    C5wrow.numeric ∧
    (round_up (.num (7/2)) 2 = .ok (.num ((⌈(7/2 : ℚ) * 10 ^ 2⌉ : ℚ) / 10 ^ 2)) ∧
     (get_smr_df [C5raw]).map (fun x => x.depth_from)
        = [C5raw].map (fun x => pandasRound 2 x.depth_from) ∧
     (get_smr_df [C5raw]).map (fun x => x.depth_to)
        = [C5raw].map (fun x => pandasRound 2 x.depth_to) ∧
     add_scalar_properties emptyWorkbook "S5w_L1" C5wrow
        = .ok { emptyWorkbook with scalar_properties :=
          emptyWorkbook.scalar_properties ++
            [mkScalarRow "S5w_L1"
                (.num ((⌈C5wrow.BAYESIAN_LOW.toRat * 10 ^ 4⌉ : ℚ) / 10 ^ 4))
                BAYESIAN_LOW_CONSTANTS,
             mkScalarRow "S5w_L1"
                (.num ((⌈C5wrow.BAYESIAN_MEDIAN.toRat * 10 ^ 4⌉ : ℚ) / 10 ^ 4))
                BAYESIAN_MEDIAN_CONSTANTS,
             mkScalarRow "S5w_L1"
                (.num ((⌈C5wrow.BAYESIAN_HIGH.toRat * 10 ^ 4⌉ : ℚ) / 10 ^ 4))
                BAYESIAN_HIGH_CONSTANTS] } ∧
     pandasRound 2 (1/200) ≠ (⌈(1/200 : ℚ) * 10 ^ 2⌉ : ℚ) / 10 ^ 2) :=
  ⟨by with_unfolding_all decide,
   C5_rounding_rules (7/2) 2 [C5raw] emptyWorkbook "S5w_L1" C5wrow
     (by with_unfolding_all decide)⟩

def C8row : SmrRow :=
  { site_name := "S8"
    depth_from := 0
    depth_to := 1
    BAYESIAN_LOW := .num (1/10)
    BAYESIAN_MEDIAN := .num (2/10)
    BAYESIAN_HIGH := .nan }

/-- C8 counterexample: with two valid values and a NaN high value the
emitter raises the NaN ValueError instead of appending 3 rows, so the
emitter does not append 3 rows regardless of how many values are valid. -/
theorem C8_counterexample :
    C8row.BAYESIAN_LOW ≠ PyFloat.nan ∧ C8row.BAYESIAN_MEDIAN ≠ PyFloat.nan ∧
    add_scalar_properties emptyWorkbook "S8_L1" C8row = .error nanError :=
  ⟨by with_unfolding_all decide, by with_unfolding_all decide, by with_unfolding_all decide⟩

/-- C8 (amended): provided all three measurement values of the row are
numbers, the scalar emitter appends exactly 3 rows, in the fixed order
low, median, high, each carrying the result qualifier, uncertainty type,
uncertainty value, uncertainty unit and remark of the band entry of the
semantic constant table. -/
theorem C8_three_rows (wb : Workbook) (sid : String) (r : SmrRow) (h : r.numeric) :
    add_scalar_properties wb sid r = .ok { wb with scalar_properties :=
      wb.scalar_properties ++
        [mkScalarRow sid (.num (scalarValue r.BAYESIAN_LOW.toRat)) BAYESIAN_LOW_CONSTANTS,
         mkScalarRow sid (.num (scalarValue r.BAYESIAN_MEDIAN.toRat)) BAYESIAN_MEDIAN_CONSTANTS,
         mkScalarRow sid (.num (scalarValue r.BAYESIAN_HIGH.toRat)) BAYESIAN_HIGH_CONSTANTS] } :=
  add_scalar_properties_numeric wb sid r h

def C8wrow : SmrRow :=
  { site_name := "S8w"
    depth_from := 0
    depth_to := 1
    BAYESIAN_LOW := .num (1/10)
    BAYESIAN_MEDIAN := .num (2/10)
    BAYESIAN_HIGH := .num (3/10) }

/-- C8 witness at a concrete fully numeric row. -/
theorem C8_witness :
    C8wrow.numeric ∧
    add_scalar_properties emptyWorkbook "S8w_L1" C8wrow
      = .ok { emptyWorkbook with scalar_properties :=
        emptyWorkbook.scalar_properties ++
          [mkScalarRow "S8w_L1" (.num (scalarValue C8wrow.BAYESIAN_LOW.toRat))
              BAYESIAN_LOW_CONSTANTS,
           mkScalarRow "S8w_L1" (.num (scalarValue C8wrow.BAYESIAN_MEDIAN.toRat))
              BAYESIAN_MEDIAN_CONSTANTS,
           mkScalarRow "S8w_L1" (.num (scalarValue C8wrow.BAYESIAN_HIGH.toRat))
              BAYESIAN_HIGH_CONSTANTS] } :=
  ⟨by with_unfolding_all decide,
   C8_three_rows emptyWorkbook "S8w_L1" C8wrow (by with_unfolding_all decide)⟩

def C9meta : MetadataRow :=
  { measured_section_name := "S9", eno := 9, dep_ref_point := 9, acq_date := "d9" }

/-- C9 counterexample: the collection emitter returns the site name, not
the generated collection name; at site S9 the appended row carries the
collection name S9 water content profile while the returned string is
S9. -/
theorem C9_counterexample :
    (add_section_interval_collection C9meta emptyWorkbook).2 = "S9" ∧
    ((add_section_interval_collection C9meta emptyWorkbook).1.collection.map
      (fun c => c.collection_name)) = ["S9 water content profile"] ∧
    ("S9" : String) ≠ "S9 water content profile" :=
  ⟨rfl, rfl, by decide⟩

/-- C9 (amended): each call of the collection emitter appends exactly one
row, whose collection_name is the site name concatenated with the fixed
suffix, leaves the other sheets unchanged, and returns the site name
(from which the interval emitter recomputes the collection name). -/
theorem C9_collection_emitter (inputs : MetadataRow) (wb : Workbook) :
    add_section_interval_collection inputs wb =
      ({ wb with collection := wb.collection ++ [mkCollectionRow inputs] },
        inputs.measured_section_name) ∧
    (mkCollectionRow inputs).collection_name
      = inputs.measured_section_name ++ COLLECTION_NAME_POSTFIX :=
  ⟨add_section_interval_collection_eq inputs wb, rfl⟩

def C1meta : MetadataRow :=
  { measured_section_name := "SiteNaN", eno := 101, dep_ref_point := 11, acq_date := "d1" }

def C1data : List SmrRawRow :=
  [{ site_name := "SiteNaN"
     depth_from := 0
     depth_to := 30
     p5 := .nan
     p50 := .num (2/10)
     p95 := .num (3/10) }]

/-- C1 counterexample: a site with one retained depth bin whose low value
is NaN; the pass over the site aborts with the NaN ValueError, so it does
not append the 1, N, N, 3N rows the claim states. -/
theorem C1_counterexample :
    (retainedFor C1data C1meta).length = 1 ∧
    process_site C1meta C1data emptyWorkbook = .error nanError :=
  ⟨by with_unfolding_all decide, by with_unfolding_all decide⟩

/-- C1 (amended): provided every retained depth bin of the site carries
three numeric percentile values, one pass over the site appends exactly
1 row to the collection sheet, N rows to the intervals sheet, N rows to
the samples sheet and 3N rows to the scalar properties sheet, where N is
the number of retained bins. -/
theorem C1_row_counts (m : MetadataRow) (smr_data_rows : List SmrRawRow) (wb : Workbook)
    (h : ∀ r ∈ retainedFor smr_data_rows m, r.numeric) :
    ∃ wb2, process_site m smr_data_rows wb = .ok wb2 ∧
      wb2.collection.length = wb.collection.length + 1 ∧
      wb2.intervals.length = wb.intervals.length + (retainedFor smr_data_rows m).length ∧
      wb2.samples.length = wb.samples.length + (retainedFor smr_data_rows m).length ∧
      wb2.scalar_properties.length
        = wb.scalar_properties.length + 3 * (retainedFor smr_data_rows m).length := by
  refine ⟨process_site_output m smr_data_rows wb,
    process_site_numeric m smr_data_rows wb h, ?_, ?_, ?_, ?_⟩
  · simp [process_site_output]
  · simp [process_site_output, site_interval_rows_length]
  · simp [process_site_output, site_sample_rows_length]
  · simp [process_site_output, site_scalar_rows_length]

def C1wmeta : MetadataRow :=
  { measured_section_name := "W1", eno := 1, dep_ref_point := 1, acq_date := "dw" }

def C1wdata : List SmrRawRow :=
  [{ site_name := "W1"
     depth_from := 0
     depth_to := 10
     p5 := .num (1/10)
     p50 := .num (2/10)
     p95 := .num (3/10) },
   { site_name := "W1"
     depth_from := 10
     depth_to := 50
     p5 := .num (1/10)
     p50 := .num (2/10)
     p95 := .num (3/10) },
   { site_name := "W1"
     depth_from := 50
     depth_to := 105
     p5 := .num (1/10)
     p50 := .num (2/10)
     p95 := .num (3/10) }]

/-- C1 witness: a site with three measurement rows of which two are
retained (the third is beyond MAX_DEPTH). -/
theorem C1_witness :
    (∀ r ∈ retainedFor C1wdata C1wmeta, r.numeric) ∧
    (∃ wb2, process_site C1wmeta C1wdata emptyWorkbook = .ok wb2 ∧
      wb2.collection.length = emptyWorkbook.collection.length + 1 ∧
      wb2.intervals.length
        = emptyWorkbook.intervals.length + (retainedFor C1wdata C1wmeta).length ∧
      wb2.samples.length
        = emptyWorkbook.samples.length + (retainedFor C1wdata C1wmeta).length ∧
      wb2.scalar_properties.length
        = emptyWorkbook.scalar_properties.length
          + 3 * (retainedFor C1wdata C1wmeta).length) :=
  ⟨by with_unfolding_all decide,
   C1_row_counts C1wmeta C1wdata emptyWorkbook (by with_unfolding_all decide)⟩

/-- C2: whenever the interval emitter completes a site, the rows it
appended to every sheet correspond exactly to the longest prefix of the
per-site subset (in original order) whose truncated end depths do not
exceed MAX_DEPTH: the loop stops at the first violation, and rows after
the first violation are emitted nowhere, even when their own depths are
within range. -/
theorem C2_depth_cutoff (working_info : MetadataRow) (s : String)
    (smr_data_rows : List SmrRawRow) (wb wb2 : Workbook)
    (h : add_section_intervals working_info s smr_data_rows wb = .ok wb2) :
    wb2.collection = wb.collection ∧
    wb2.intervals = wb.intervals ++
      site_interval_rows s (s ++ COLLECTION_NAME_POSTFIX)
        ((site_results smr_data_rows s).takeWhile
          (fun r => decide (pyInt r.depth_to ≤ MAX_DEPTH))) ∧
    wb2.samples = wb.samples ++
      site_sample_rows working_info s (s ++ COLLECTION_NAME_POSTFIX) 0
        ((site_results smr_data_rows s).takeWhile
          (fun r => decide (pyInt r.depth_to ≤ MAX_DEPTH))) ∧
    wb2.scalar_properties = wb.scalar_properties ++
      site_scalar_rows 0
        ((site_results smr_data_rows s).takeWhile
          (fun r => decide (pyInt r.depth_to ≤ MAX_DEPTH))) := by
  obtain ⟨hnum, hout⟩ := add_section_intervals_ok h
  rw [hout]
  exact ⟨rfl, rfl, rfl, rfl⟩

def C2meta : MetadataRow :=
  { measured_section_name := "S2", eno := 2, dep_ref_point := 2, acq_date := "d2" }

def C2data : List SmrRawRow :=
  [{ site_name := "S2"
     depth_from := 0
     depth_to := 10
     p5 := .num (1/10)
     p50 := .num (2/10)
     p95 := .num (3/10) },
   { site_name := "S2"
     depth_from := 10
     depth_to := 50
     p5 := .num (1/10)
     p50 := .num (2/10)
     p95 := .num (3/10) },
   { site_name := "S2"
     depth_from := 50
     depth_to := 105
     p5 := .num (1/10)
     p50 := .num (2/10)
     p95 := .num (3/10) },
   { site_name := "S2"
     depth_from := 105
     depth_to := 30
     p5 := .num (1/10)
     p50 := .num (2/10)
     p95 := .num (3/10) }]

def C2wb : Workbook :=
  site_sheets_append C2meta "S2" ("S2" ++ COLLECTION_NAME_POSTFIX) 0
    (retained (site_results C2data "S2")) emptyWorkbook

/-- C2 witness: depth_to values 10, 50, 105 and then 30; exactly the
first two bins are retained, and the fourth bin is never emitted even
though its own depth is within range. -/
theorem C2_witness :
    add_section_intervals C2meta "S2" C2data emptyWorkbook = .ok C2wb ∧
    (C2wb.collection = emptyWorkbook.collection ∧
     C2wb.intervals = emptyWorkbook.intervals ++
       site_interval_rows "S2" ("S2" ++ COLLECTION_NAME_POSTFIX)
         ((site_results C2data "S2").takeWhile
           (fun r => decide (pyInt r.depth_to ≤ MAX_DEPTH))) ∧
     C2wb.samples = emptyWorkbook.samples ++
       site_sample_rows C2meta "S2" ("S2" ++ COLLECTION_NAME_POSTFIX) 0
         ((site_results C2data "S2").takeWhile
           (fun r => decide (pyInt r.depth_to ≤ MAX_DEPTH))) ∧
     C2wb.scalar_properties = emptyWorkbook.scalar_properties ++
       site_scalar_rows 0
         ((site_results C2data "S2").takeWhile
           (fun r => decide (pyInt r.depth_to ≤ MAX_DEPTH)))) ∧
    ((site_results C2data "S2").takeWhile
      (fun r => decide (pyInt r.depth_to ≤ MAX_DEPTH))).length = 2 ∧
    (site_results C2data "S2").length = 4 ∧
    C2wb.intervals.length = 2 :=
  ⟨add_section_intervals_numeric C2meta "S2" C2data emptyWorkbook
     (by with_unfolding_all decide),
   C2_depth_cutoff C2meta "S2" C2data emptyWorkbook C2wb
     (add_section_intervals_numeric C2meta "S2" C2data emptyWorkbook
       (by with_unfolding_all decide)),
   by with_unfolding_all decide, by with_unfolding_all decide,
   by with_unfolding_all decide⟩

/-- C6: every interval row emitted by a completed interval emitter call
has interval_id of the form site, underscore, truncated (toward zero)
start depth, dash, truncated end depth, letter m, where the truncations
are applied to the depth values already rounded to 2 decimals at frame
build time; the emitted depth cells carry those rounded values. -/
theorem C6_interval_ids (working_info : MetadataRow) (s : String)
    (smr_data_rows : List SmrRawRow) (wb wb2 : Workbook)
    (h : add_section_intervals working_info s smr_data_rows wb = .ok wb2) :
    wb2.intervals = wb.intervals ++
      (retained (site_results smr_data_rows s)).map (fun r =>
        { collection_no := ""
          collection_name := s ++ COLLECTION_NAME_POSTFIX
          interval_no := ""
          interval_id := s ++ "_" ++ intStr (pyInt r.depth_from) ++ "-"
            ++ intStr (pyInt r.depth_to) ++ "m"
          interval_start_depth := r.depth_from
          interval_end_depth := r.depth_to
          interval_unit_of_measure := INTERVAL_UNIT_OF_MEASURE }) ∧
    ∀ r ∈ site_results smr_data_rows s, ∃ x ∈ smr_data_rows,
      r.depth_from = pandasRound 2 x.depth_from ∧
        r.depth_to = pandasRound 2 x.depth_to := by
  obtain ⟨hnum, hout⟩ := add_section_intervals_ok h
  constructor
  · rw [hout]
    rfl
  · intro r hr
    have hr2 : r ∈ get_smr_df smr_data_rows := (List.filter_sublist _).subset hr
    unfold get_smr_df at hr2
    obtain ⟨x, hx, hmap⟩ := List.mem_map.1 hr2
    refine ⟨x, hx, ?_, ?_⟩
    · rw [← hmap]
    · rw [← hmap]

def C6meta : MetadataRow :=
  { measured_section_name := "S6", eno := 6, dep_ref_point := 6, acq_date := "d6" }

def C6data : List SmrRawRow :=
  [{ site_name := "S6"
     depth_from := 487/500
     depth_to := 9999/100
     p5 := .num (1/10)
     p50 := .num (2/10)
     p95 := .num (3/10) }]

def C6wb : Workbook :=
  site_sheets_append C6meta "S6" ("S6" ++ COLLECTION_NAME_POSTFIX) 0
    (retained (site_results C6data "S6")) emptyWorkbook

/-- C6 witness: raw depths 0.974 and 99.99; the start depth is rounded
to 0.97 at frame build and truncated to 0, the end depth 99.99 is
truncated to 99 (not rounded to 100), giving interval id S6_0-99m. -/
theorem C6_witness :
    add_section_intervals C6meta "S6" C6data emptyWorkbook = .ok C6wb ∧
    (C6wb.intervals = emptyWorkbook.intervals ++
      (retained (site_results C6data "S6")).map (fun r =>
        { collection_no := ""
          collection_name := "S6" ++ COLLECTION_NAME_POSTFIX
          interval_no := ""
          interval_id := "S6" ++ "_" ++ intStr (pyInt r.depth_from) ++ "-"
            ++ intStr (pyInt r.depth_to) ++ "m"
          interval_start_depth := r.depth_from
          interval_end_depth := r.depth_to
          interval_unit_of_measure := INTERVAL_UNIT_OF_MEASURE }) ∧
     ∀ r ∈ site_results C6data "S6", ∃ x ∈ C6data,
       r.depth_from = pandasRound 2 x.depth_from ∧
         r.depth_to = pandasRound 2 x.depth_to) ∧
    C6wb.intervals.map (fun x => x.interval_id) = ["S6_0-99m"] ∧
    C6wb.intervals.map (fun x => x.interval_start_depth) = [97/100] :=
  ⟨add_section_intervals_numeric C6meta "S6" C6data emptyWorkbook
     (by with_unfolding_all decide),
   C6_interval_ids C6meta "S6" C6data emptyWorkbook C6wb
     (add_section_intervals_numeric C6meta "S6" C6data emptyWorkbook
       (by with_unfolding_all decide)),
   by with_unfolding_all decide, by with_unfolding_all decide⟩

/-- C7: the sample rows a completed interval emitter call appends carry,
in order, the sample ids site_L1 up to site_LN over the N retained bins
(1-based position within the per-site subset), and these ids are
pairwise distinct. -/
theorem C7_sample_ids (working_info : MetadataRow) (s : String)
    (smr_data_rows : List SmrRawRow) (wb wb2 : Workbook)
    (h : add_section_intervals working_info s smr_data_rows wb = .ok wb2) :
    (wb2.samples.drop wb.samples.length).map (fun x => x.sample_id)
      = (List.range (retained (site_results smr_data_rows s)).length).map
          (fun i => s ++ "_L" ++ natStr (i + 1)) ∧
    ((wb2.samples.drop wb.samples.length).map (fun x => x.sample_id)).Nodup := by
  obtain ⟨hnum, hout⟩ := add_section_intervals_ok h
  have hdrop : wb2.samples.drop wb.samples.length
      = site_sample_rows working_info s (s ++ COLLECTION_NAME_POSTFIX) 0
          (retained (site_results smr_data_rows s)) := by
    rw [hout]
    simp only [site_sheets_append]
    exact List.drop_left _ _
  have hids := site_sample_rows_map_id working_info s (s ++ COLLECTION_NAME_POSTFIX)
    (retained (site_results smr_data_rows s))
    (fun r hr => site_results_site_name ((List.takeWhile_prefix _).sublist.subset hr)) 0
  have hzero : (List.range (retained (site_results smr_data_rows s)).length).map
      (fun i => s ++ "_L" ++ natStr (0 + i + 1))
      = (List.range (retained (site_results smr_data_rows s)).length).map
          (fun i => s ++ "_L" ++ natStr (i + 1)) := by
    apply List.map_congr_left
    intro i _
    have harith : 0 + i + 1 = i + 1 := by omega
    rw [harith]
  constructor
  · rw [hdrop, hids, hzero]
  · rw [hdrop, hids, hzero]
    exact range_tag_nodup s (retained (site_results smr_data_rows s)).length

def C7meta : MetadataRow :=
  { measured_section_name := "S7", eno := 7, dep_ref_point := 7, acq_date := "d7" }

def C7data : List SmrRawRow :=
  [{ site_name := "S7"
     depth_from := 0
     depth_to := 10
     p5 := .num (1/10)
     p50 := .num (2/10)
     p95 := .num (3/10) },
   { site_name := "S7"
     depth_from := 10
     depth_to := 50
     p5 := .num (1/10)
     p50 := .num (2/10)
     p95 := .num (3/10) },
   { site_name := "S7"
     depth_from := 50
     depth_to := 90
     p5 := .num (1/10)
     p50 := .num (2/10)
     p95 := .num (3/10) }]

def C7wb : Workbook :=
  site_sheets_append C7meta "S7" ("S7" ++ COLLECTION_NAME_POSTFIX) 0
    (retained (site_results C7data "S7")) emptyWorkbook

/-- C7 witness: three retained bins produce the sample ids S7_L1, S7_L2,
S7_L3, distinct and increasing with bin position. -/
theorem C7_witness :
    add_section_intervals C7meta "S7" C7data emptyWorkbook = .ok C7wb ∧
    ((C7wb.samples.drop emptyWorkbook.samples.length).map (fun x => x.sample_id)
      = (List.range (retained (site_results C7data "S7")).length).map
          (fun i => "S7" ++ "_L" ++ natStr (i + 1)) ∧
     ((C7wb.samples.drop emptyWorkbook.samples.length).map
        (fun x => x.sample_id)).Nodup) ∧
    C7wb.samples.map (fun x => x.sample_id) = ["S7_L1", "S7_L2", "S7_L3"] :=
  ⟨add_section_intervals_numeric C7meta "S7" C7data emptyWorkbook
     (by with_unfolding_all decide),
   C7_sample_ids C7meta "S7" C7data emptyWorkbook C7wb
     (add_section_intervals_numeric C7meta "S7" C7data emptyWorkbook
       (by with_unfolding_all decide)),
   by with_unfolding_all decide⟩

/-- C10: a metadata site whose name matches no measurement row still gets
exactly one collection row; no interval, sample or scalar property row is
appended for it; the pass succeeds and the per-site loop of main simply
continues with the next site on the updated workbook. -/
theorem C10_site_without_measurements (m : MetadataRow) (smr_data_rows : List SmrRawRow)
    (wb : Workbook)
    (h : ∀ x ∈ smr_data_rows, x.site_name ≠ m.measured_section_name) :
    process_site m smr_data_rows wb =
      .ok { wb with collection := wb.collection ++ [mkCollectionRow m] } ∧
    ∀ rest : List MetadataRow,
      main_loop smr_data_rows wb (m :: rest)
        = main_loop smr_data_rows
            { wb with collection := wb.collection ++ [mkCollectionRow m] } rest := by
  have hsr : site_results smr_data_rows m.measured_section_name = [] := by
    unfold site_results
    rw [List.filter_eq_nil_iff]
    intro r hr
    unfold get_smr_df at hr
    obtain ⟨x, hx, hmap⟩ := List.mem_map.1 hr
    have hname : r.site_name = x.site_name := by rw [← hmap]
    simp [hname, h x hx]
  have hret : retainedFor smr_data_rows m = [] := by
    unfold retainedFor retained
    rw [hsr]
    rfl
  have hnum : ∀ r ∈ retainedFor smr_data_rows m, r.numeric := by
    rw [hret]
    simp
  have hout := process_site_numeric m smr_data_rows wb hnum
  have hsimp : process_site_output m smr_data_rows wb
      = { wb with collection := wb.collection ++ [mkCollectionRow m] } := by
    simp [process_site_output, hret, site_interval_rows, site_sample_rows,
      site_scalar_rows, List.enumFrom]
  rw [hsimp] at hout
  refine ⟨hout, ?_⟩
  intro rest
  simp only [main_loop]
  rw [hout]
  simp [Bind.bind, Except.bind]

def C10meta : MetadataRow :=
  { measured_section_name := "X", eno := 10, dep_ref_point := 10, acq_date := "dx" }

def C10data : List SmrRawRow :=
  [{ site_name := "Y"
     depth_from := 0
     depth_to := 10
     p5 := .num (1/10)
     p50 := .num (2/10)
     p95 := .num (3/10) }]

/-- C10 witness: site X has no measurement rows (the frame only has rows
for site Y). -/
theorem C10_witness :
    (∀ x ∈ C10data, x.site_name ≠ C10meta.measured_section_name) ∧
    (process_site C10meta C10data emptyWorkbook =
      .ok { emptyWorkbook with
        collection := emptyWorkbook.collection ++ [mkCollectionRow C10meta] } ∧
     ∀ rest : List MetadataRow,
       main_loop C10data emptyWorkbook (C10meta :: rest)
         = main_loop C10data
             { emptyWorkbook with
               collection := emptyWorkbook.collection ++ [mkCollectionRow C10meta] }
             rest) :=
  ⟨by with_unfolding_all decide,
   C10_site_without_measurements C10meta C10data emptyWorkbook
     (by with_unfolding_all decide)⟩

/-- C3 (amended): in any completed run over metadata rows with pairwise
distinct site names, every interval and sample row carries a
collection_name matching exactly one collection row, and every scalar
property row carries a sample_id matching exactly one sample row (scalar
property rows have no collection name column of their own; they trace to
a collection transitively through their sample). -/
theorem C3_traceability (metadata : List MetadataRow) (smr_data_rows : List SmrRawRow)
    (wb : Workbook)
    (hnd : (metadata.map (fun m => m.measured_section_name)).Nodup)
    (hok : run_main metadata smr_data_rows = .ok wb) :
    (∀ x ∈ wb.intervals,
      wb.collection.countP (fun c => decide (c.collection_name = x.collection_name)) = 1) ∧
    (∀ x ∈ wb.samples,
      wb.collection.countP (fun c => decide (c.collection_name = x.collection_name)) = 1) ∧
    (∀ x ∈ wb.scalar_properties,
      wb.samples.countP (fun s => decide (s.sample_id = x.sampleid)) = 1) := by
  obtain ⟨hnum, hfin⟩ := run_main_ok hok
  rw [hfin]
  exact ⟨final_intervals_trace metadata smr_data_rows hnd,
    final_samples_trace metadata smr_data_rows hnd,
    final_scalars_trace metadata smr_data_rows hnd⟩

def C3cmeta : MetadataRow :=
  { measured_section_name := "S3", eno := 3, dep_ref_point := 3, acq_date := "d3" }

def C3cdata : List SmrRawRow :=
  [{ site_name := "S3"
     depth_from := 0
     depth_to := 20
     p5 := .num (1/10)
     p50 := .num (2/10)
     p95 := .num (3/10) }]

def C3cwb : Workbook := final_workbook [C3cmeta] C3cdata

/-- C3 counterexample: in a completed run the scalar property rows carry
no cell equal to the collection name of any collection row (the scalar
properties sheet has no collection name column), so a scalar property
row does not carry a collection_name as the claim states. -/
theorem C3_counterexample :
    run_main [C3cmeta] C3cdata = .ok C3cwb ∧
    C3cwb.scalar_properties ≠ [] ∧
    C3cwb.collection ≠ [] ∧
    (C3cwb.scalar_properties.all fun r =>
      r.cells.all fun c => C3cwb.collection.all fun k =>
        c != Cell.str k.collection_name) = true :=
  ⟨run_main_numeric [C3cmeta] C3cdata (by with_unfolding_all decide),
   by with_unfolding_all decide,
   by with_unfolding_all decide, by with_unfolding_all decide⟩

def C3wmeta1 : MetadataRow :=
  { measured_section_name := "S3a", eno := 31, dep_ref_point := 31, acq_date := "da" }

def C3wmeta2 : MetadataRow :=
  { measured_section_name := "S3b", eno := 32, dep_ref_point := 32, acq_date := "db" }

def C3wdata : List SmrRawRow :=
  [{ site_name := "S3a"
     depth_from := 0
     depth_to := 10
     p5 := .num (1/10)
     p50 := .num (2/10)
     p95 := .num (3/10) },
   { site_name := "S3b"
     depth_from := 0
     depth_to := 10
     p5 := .num (1/10)
     p50 := .num (2/10)
     p95 := .num (3/10) },
   { site_name := "S3b"
     depth_from := 10
     depth_to := 40
     p5 := .num (1/10)
     p50 := .num (2/10)
     p95 := .num (3/10) }]

def C3wwb : Workbook := final_workbook [C3wmeta1, C3wmeta2] C3wdata

/-- C3 witness: a completed two-site run with distinct site names. -/
theorem C3_witness :
    ([C3wmeta1, C3wmeta2].map (fun m => m.measured_section_name)).Nodup ∧
    run_main [C3wmeta1, C3wmeta2] C3wdata = .ok C3wwb ∧
    ((∀ x ∈ C3wwb.intervals,
      C3wwb.collection.countP
        (fun c => decide (c.collection_name = x.collection_name)) = 1) ∧
     (∀ x ∈ C3wwb.samples,
      C3wwb.collection.countP
        (fun c => decide (c.collection_name = x.collection_name)) = 1) ∧
     (∀ x ∈ C3wwb.scalar_properties,
      C3wwb.samples.countP (fun s => decide (s.sample_id = x.sampleid)) = 1)) :=
  ⟨by with_unfolding_all decide,
   run_main_numeric [C3wmeta1, C3wmeta2] C3wdata (by with_unfolding_all decide),
   C3_traceability [C3wmeta1, C3wmeta2] C3wdata C3wwb
     (by with_unfolding_all decide)
     (run_main_numeric [C3wmeta1, C3wmeta2] C3wdata (by with_unfolding_all decide))⟩

end SMRLoad
